import Mathlib

/-!
Shallow embedding of the Trustcart risk-scoring pipeline
(`app/models/product_classifier.py`, `app/models/fraud_detector.py`,
`app/models/llm_reasoner.py`) and proofs of the specification claims.

Conventions of the embedding:
* Python floats are modelled as exact rationals (`ℚ`).
* Python dict "products" are modelled by the `Product` structure; the mutable
  annotation fields added by the pipeline are `Option`-valued fields that start
  out `none` on fresh listings.
* The external Groq explanation capability is modelled as an oracle parameter
  `llm : Bool → Product → Option PriceStats → Option Analysis`; the `Bool` is
  the `use_smart_model` flag, and `none` models a disabled/failed call.
  The content cache inside `LLMFraudExplainer.explain_risk` is keyed on
  (title, price, risk level) — NOT on the `use_smart_model` flag — and is
  modelled explicitly for `batch_explain`, where it decides the semantics of
  the escalation branch (the strong-model re-invocation hits the cache entry
  just written by the fast call). In the pipeline's own enrichment loop every
  listing is called once with the fast model, so there the cache can only
  substitute the result of an earlier listing with the identical
  (title, price, risk level) key; the enrichment embedding abstracts this by
  treating the capability as a deterministic oracle.
* The purely informational annotations `specs` / `features`
  (`extract_universal_specs`, `extract_key_features`) are regex spec mining
  that no claim depends on and that feed back into no gating or scoring
  decision; they are omitted from the `Product` model.
-/

namespace Trustcart

/-- Helper for `strContains`: does `pat` occur as a contiguous run of `l`? -/
def containsRun (pat : List Char) : List Char → Bool
  | [] => pat.isEmpty
  | c :: rest => pat.isPrefixOf (c :: rest) || containsRun pat rest

/-- Python `pat in s` on strings (substring containment). -/
def strContains (s pat : String) : Bool :=
  containsRun pat.toList s.toList

/-- Python `s.lower()` (ASCII case folding, which covers every string the
source compares). -/
def strLower (s : String) : String :=
  ⟨s.data.map Char.toLower⟩

/-- Seller sub-record of a listing (`product['seller']`). -/
structure Seller where
  name : String
  rating : ℚ
deriving DecidableEq

/-- Structured fraud analysis (`ExplanationResult`): either produced by the
explanation capability or synthesized by `_get_default_analysis`. -/
structure Analysis where
  scam_probability : ℚ
  red_flags : List String
  reasoning : String
  recommendation : String
deriving DecidableEq

/-- A marketplace listing together with the mutable annotations the pipeline
adds (`is_valid_product`, `invalid_reason`, risk fields, `fraud_analysis`,
`risk_explanation`). Fresh listings from the scrapers carry `none`/`[]` in
every annotation field. -/
structure Product where
  title : String
  price : ℚ
  rating : ℚ
  reviews : ℕ
  seller : Seller
  source : String
  platform : String
  is_valid_product : Bool := true
  invalid_reason : Option String := none
  risk_score : Option ℚ := none
  risk_factors : List String := []
  risk_level : Option String := none
  price_tier : Option String := none
  price_percentile : Option ℚ := none
  fraud_analysis : Option Analysis := none
  risk_explanation : Option String := none
deriving DecidableEq

instance : Inhabited Product :=
  ⟨{ title := "", price := 0, rating := 0, reviews := 0,
     seller := { name := "", rating := 0 }, source := "", platform := "" }⟩

/-! ### `UniversalProductClassifier` (product_classifier.py) -/

/-- `self.spam_keywords`. -/
def spam_keywords : List String :=
  ["click here", "limited time offer", "act now",
   "guarantee", "100% free", "no risk",
   "buy now", "order now", "call now",
   "amazing deal", "unbelievable price"]

/-- `self.toy_indicators` ("kids\x27" is the source's `'kids\''`). -/
def toy_indicators : List String :=
  ["toy", "pretend", "play set", "playset", "playhouse",
   "kids", "children", "toddler", "child", "baby",
   "for kids", "for children", "kids\x27",
   "leapfrog", "vtech", "fisher-price", "little tikes",
   "step2", "melissa & doug", "kidkraft", "power wheels",
   "educational toy", "learning toy", "stem toy",
   "miniature", "mini version", "dollhouse", "doll house",
   "pretend play", "role play", "imaginative play",
   "play kitchen", "play food", "play tools",
   "wooden toy", "plastic toy"]

/-- `self.toy_category_patterns`, in the source's insertion order. -/
def toy_category_patterns : List (String × List String) :=
  [("vehicle",
    ["ride on", "ride-on", "push car", "pedal car",
     "remote control", "rc ", "r/c", "r.c.",
     "12v", "6v", "24v battery",
     "electric car for kids", "kids electric",
     "model car", "die-cast", "diecast", "scale model",
     "1:24", "1:18", "1:12", "1:64", "1:43",
     "hot wheels", "matchbox", "tonka"]),
   ("furniture",
    ["play kitchen", "toy kitchen", "kids kitchen",
     "play table", "kids table", "toddler table",
     "play chair", "kids chair", "toddler chair",
     "toy storage", "kids storage",
     "play tent", "kids tent", "play house",
     "doll furniture", "dollhouse furniture",
     "plastic furniture", "foam furniture"]),
   ("electronics",
    ["toy laptop", "kids laptop", "learning laptop",
     "toy tablet", "kids tablet", "learning tablet",
     "toy phone", "kids phone", "play phone",
     "toy computer", "kids computer",
     "electronic learning", "learning system",
     "educational tablet", "kidizoom"]),
   ("appliances",
    ["toy blender", "play blender", "kids blender",
     "toy vacuum", "play vacuum", "kids vacuum",
     "toy microwave", "play microwave",
     "toy washing machine", "play washer",
     "play appliance", "toy appliance"])]

/-- `self.digital_indicators`. -/
def digital_indicators : List String :=
  ["download", "digital code", "gift card",
   "e-book", "ebook", "software license",
   "digital download", "instant download"]

/-- `_is_searching_for_toys`: the query (lowercased) contains one of the fixed
toy-search substrings. -/
def is_searching_for_toys (query : String) : Bool :=
  let query_lower := strLower query
  ["toy", "toys", "kids", "children", "toddler", "baby"].any
    (fun term => strContains query_lower term)

/-- `_query_matches_category`: keyword table of `category_keywords`. -/
def query_matches_category (query : String) (category : String) : Bool :=
  let category_keywords : List (String × List String) :=
    [("vehicle", ["car", "cars", "truck", "vehicle", "auto", "suv", "van"]),
     ("furniture", ["furniture", "table", "chair", "desk", "sofa", "couch", "bed", "kitchen"]),
     ("electronics", ["laptop", "computer", "tablet", "phone", "iphone", "ipad"]),
     ("appliances", ["blender", "vacuum", "microwave", "washer", "dryer", "refrigerator"])]
  let keywords := ((category_keywords.filter (fun kv => kv.1 = category)).map Prod.snd).flatten
  keywords.any (fun keyword => strContains query keyword)

/-- Strategy 2 of `_is_toy_product`: scan the category pattern table in order
and return the first category whose query keywords match and whose toy
patterns hit the title. -/
def findToyCategory (title query_lower : String) :
    List (String × List String) → Option String
  | [] => none
  | (category, patterns) :: rest =>
    if query_matches_category query_lower category ∧
        1 ≤ patterns.countP (fun pattern => strContains title pattern) then
      some category
    else findToyCategory title query_lower rest

/-- `_is_toy_product` (title is already lowercased by the caller, the query is
lowercased inside, exactly as in the source). -/
def is_toy_product (title : String) (price : ℚ) (query : String) : Bool × String :=
  if 1 ≤ toy_indicators.countP (fun keyword => strContains title keyword) then
    (true, "Product is a toy (contains toy indicators)")
  else
    let query_lower := strLower query
    match findToyCategory title query_lower toy_category_patterns with
    | some category =>
      (true, "Product is a toy " ++ category ++ ", not a real " ++ category)
    | none =>
      if (["car", "vehicle", "auto"].any (fun word => strContains query_lower word)) ∧
          0 < price ∧ price < 1000 ∧
          (["electric", "battery", "12v", "6v", "rechargeable"].any
            (fun ind => strContains title ind)) ∧
          (["aosom", "costway", "best ride on", "kid trax"].any
            (fun brand => strContains title brand)) then
        (true, "Product is a battery-powered toy car")
      else if (["laptop", "tablet", "computer"].any (fun word => strContains query_lower word)) ∧
          0 < price ∧ price < 50 ∧
          (["kids", "learning", "educational"].any (fun word => strContains title word)) then
        (true, "Product is a toy laptop/tablet")
      else if (["furniture", "table", "chair", "kitchen"].any
            (fun word => strContains query_lower word)) ∧
          0 < price ∧ price < 100 ∧
          (["plastic", "play", "kids", "little tikes"].any
            (fun ind => strContains title ind)) then
        (true, "Product is toy furniture")
      else
        (false, "")

/-- `is_valid_product`: the validity gate, checks 1-5 in source order. -/
def is_valid_product (product : Product) (query : String) : Bool × String :=
  let title := strLower product.title
  let price := product.price
  if title.length < 5 then
    (false, "Invalid or missing title")
  else if price ≤ 0 then
    (false, "No valid price found")
  else if 2 ≤ spam_keywords.countP (fun keyword => strContains title keyword) then
    (false, "Contains multiple spam/scam keywords")
  else if ¬ is_searching_for_toys query = true ∧ (is_toy_product title price query).1 = true then
    (false, (is_toy_product title price query).2)
  else if 1 ≤ digital_indicators.countP (fun keyword => strContains title keyword) then
    (true, "Warning: Digital product detected")
  else
    (true, "Valid product")

/-! ### numpy helpers used by fraud_detector.py -/

/-- Smallest element of a list (Python `min`; 0 on the empty list, which every
caller below rules out). -/
def listMin : List ℚ → ℚ
  | [] => 0
  | x :: xs => xs.foldl min x

/-- Largest element of a list (Python `max`; 0 on the empty list, which every
caller below rules out). -/
def listMax : List ℚ → ℚ
  | [] => 0
  | x :: xs => xs.foldl max x

/-- `np.median`: middle element of the sorted list, or the average of the two
middle elements for even length (0 on the empty list, which every caller
below rules out). -/
def npMedian (l : List ℚ) : ℚ :=
  let s := l.insertionSort (· ≤ ·)
  let n := s.length
  if n = 0 then 0
  else if n % 2 = 1 then s.getD (n / 2) 0
  else (s.getD (n / 2 - 1) 0 + s.getD (n / 2) 0) / 2

/-- `np.mean`. -/
def npMean (l : List ℚ) : ℚ :=
  l.sum / (l.length : ℚ)

/-- The square of `np.std` (population variance). The source stores
`np.std(filtered_prices)`; the square root does not exist in `ℚ`, so the
embedding carries the variance instead — the same data determine both. -/
def npVariance (l : List ℚ) : ℚ :=
  (l.map (fun x => (x - npMean l) ^ 2)).sum / (l.length : ℚ)

/-- Round-half-to-even to an integer (the rounding used by Python/numpy). -/
def roundHalfEven (x : ℚ) : ℤ :=
  if x - ⌊x⌋ = 1 / 2 then (if ⌊x⌋ % 2 = 0 then ⌊x⌋ else ⌊x⌋ + 1)
  else round x

/-- Python `round(x, 1)`. -/
def round1 (x : ℚ) : ℚ :=
  (roundHalfEven (10 * x) : ℚ) / 10

/-- Python `int(x)` (truncation toward zero). -/
def pyTruncInt (x : ℚ) : ℤ :=
  if 0 ≤ x then ⌊x⌋ else ⌈x⌉

/-! ### `UniversalFraudDetector` (fraud_detector.py) -/

/-- Result of `_classify_price_tier`. -/
structure TierInfo where
  tier : String
  percentile : ℚ
  is_outlier_high : Bool
  median : ℚ
deriving DecidableEq

/-- The positive prices extracted from a product list:
`[p.get('price', 0) for p in all_products if p.get('price', 0) > 0]`. -/
def positivePrices (all_products : List Product) : List ℚ :=
  (all_products.filter (fun p => 0 < p.price)).map (fun p => p.price)

/-- Steps 3-4 of `_classify_price_tier`: drop prices above `10 ×` the raw
median, falling back to the unfiltered list when fewer than 3 remain.
The percentile and the clean median are computed over this list. -/
def comparisonPrices (prices : List ℚ) : List ℚ :=
  let median_price := npMedian prices
  let filtered := prices.filter (fun p => p ≤ median_price * 10)
  if filtered.length < 3 then prices else filtered

/-- Step 5 of `_classify_price_tier`: the fraction of prices `≤ price`,
scaled to `[0, 100]`. -/
def rawPercentile (price : ℚ) (l : List ℚ) : ℚ :=
  ((l.countP (fun p => p ≤ price) : ℚ) / (l.length : ℚ)) * 100

/-- Step 6 of `_classify_price_tier`: fixed percentile breakpoints. -/
def tierOfPercentile (percentile : ℚ) : String :=
  if percentile ≤ 10 then "extremely_cheap"
  else if percentile ≤ 25 then "budget"
  else if percentile ≤ 75 then "mid"
  else if percentile ≤ 90 then "premium"
  else "luxury"

/-- `_classify_price_tier`. -/
def classify_price_tier (price : ℚ) (all_products : List Product) : TierInfo :=
  let prices := positivePrices all_products
  if prices.length < 3 then
    { tier := "unknown", percentile := 50, is_outlier_high := false, median := 0 }
  else
    let median_price := npMedian prices
    if median_price * 10 < price then
      { tier := "outlier_high", percentile := 100, is_outlier_high := true,
        median := median_price }
    else
      let filtered_prices := comparisonPrices prices
      let clean_median := npMedian filtered_prices
      let sorted_prices := filtered_prices.insertionSort (· ≤ ·)
      let percentile := rawPercentile price sorted_prices
      { tier := tierOfPercentile percentile, percentile := round1 percentile,
        is_outlier_high := false, median := clean_median }

/-- `trusted_sellers` list of `_calculate_risk`. -/
def trusted_sellers : List String :=
  ["target", "walmart", "best buy", "amazon", "ulta", "kohl",
   "barnes & noble", "books a million", "abebooks", "dyson",
   "ikea", "macy", "west elm", "crate & barrel", "wayfair"]

/-- The trust gate of `_calculate_risk`: seller name or source contains a
trusted-retailer substring (both lowercased). -/
def is_trusted (product : Product) : Bool :=
  trusted_sellers.any (fun trusted =>
    strContains (strLower product.seller.name) trusted ||
    strContains (strLower product.source) trusted)

/-- Price-tier term of `_calculate_risk` (score contribution, risk factors). -/
def priceTierTerm (trusted : Bool) (platform : String) (reviews : ℕ) (price : ℚ)
    (ti : TierInfo) : ℚ × List String :=
  if ti.is_outlier_high = true then
    (0.15, ["High-value or rare item - verify authenticity carefully"])
  else if ti.tier = "extremely_cheap" then
    if trusted = true ∧ platform = "google_shopping" then
      (0.1, ["Significantly below typical price (possible clearance)"])
    else
      let percent_below := pyTruncInt (((ti.median - price) / ti.median) * 100)
      (0.5, ["Extremely cheap: " ++ toString percent_below ++ "% below typical price"])
  else if ti.tier = "budget" then
    if trusted = true then (0, [])
    else (0.2, ["Lower-priced option - verify condition and seller"])
  else if ti.tier = "mid" then (0, [])
  else if ti.tier = "premium" ∨ ti.tier = "luxury" then
    if trusted = false ∧ reviews = 0 then
      (0.2, ["High-value item from seller with no reviews"])
    else (0, [])
  else (0, [])

/-- Rating term of `_calculate_risk`. -/
def ratingTerm (trusted : Bool) (rating : ℚ) : ℚ × List String :=
  if rating = 0 then
    if trusted = true then (0.05, [])
    else (0.15, ["No rating available"])
  else if rating < 3 then
    (0.25, ["Low rating: " ++ toString rating ++ "/5"])
  else (0, [])

/-- Review-count term of `_calculate_risk`. -/
def reviewsTerm (trusted : Bool) (reviews : ℕ) : ℚ × List String :=
  if reviews = 0 then
    if trusted = true then (0.05, [])
    else (0.15, ["Very few reviews (0)"])
  else if reviews < 5 then
    (0.1, ["Few reviews (" ++ toString reviews ++ ")"])
  else (0, [])

/-- Seller-rating term of `_calculate_risk`. -/
def sellerRatingTerm (seller_rating : ℚ) : ℚ × List String :=
  if 0 < seller_rating ∧ seller_rating < 3 then
    (0.2, ["Low seller rating: " ++ toString seller_rating ++ "/5"])
  else (0, [])

/-- Result of `_calculate_risk` together with the price-tier annotations the
source writes onto the product while scoring it. -/
structure RiskResult where
  score : ℚ
  factors : List String
  price_tier : Option String
  price_percentile : Option ℚ
deriving DecidableEq

/-- `_calculate_risk`: additive composition of the four terms, clamped to 1;
the price-tier term only fires on cohorts of at least 5 valid products. -/
def calculate_risk (product : Product) (all_products : List Product) : RiskResult :=
  let trusted := is_trusted product
  let platform := strLower product.platform
  if 5 ≤ all_products.length then
    let ti := classify_price_tier product.price all_products
    let t1 := priceTierTerm trusted platform product.reviews product.price ti
    let t2 := ratingTerm trusted product.rating
    let t3 := reviewsTerm trusted product.reviews
    let t4 := sellerRatingTerm product.seller.rating
    { score := min (t1.1 + t2.1 + t3.1 + t4.1) 1,
      factors := t1.2 ++ t2.2 ++ t3.2 ++ t4.2,
      price_tier := some ti.tier, price_percentile := some ti.percentile }
  else
    let t2 := ratingTerm trusted product.rating
    let t3 := reviewsTerm trusted product.reviews
    let t4 := sellerRatingTerm product.seller.rating
    { score := min (t2.1 + t3.1 + t4.1) 1,
      factors := t2.2 ++ t3.2 ++ t4.2,
      price_tier := none, price_percentile := none }

/-- `_get_risk_level`: fixed 0.55 / 0.25 banding. -/
def get_risk_level (risk_score : ℚ) : String :=
  if 0.55 ≤ risk_score then "HIGH"
  else if 0.25 ≤ risk_score then "MEDIUM"
  else "LOW"

/-- `_get_default_analysis`: deterministic default explanation derived from
the product's own risk level, score and factors. -/
def get_default_analysis (product : Product) : Analysis :=
  let risk_level := product.risk_level.getD "UNKNOWN"
  let risk_score := product.risk_score.getD 0
  let risk_factors := product.risk_factors
  if risk_level = "LOW" then
    { scam_probability := risk_score, red_flags := [],
      reasoning := "This listing appears legitimate with reasonable pricing and good seller reputation.",
      recommendation := "SAFE TO BUY" }
  else if risk_level = "MEDIUM" then
    { scam_probability := risk_score, red_flags := risk_factors,
      reasoning := "This listing has some minor concerns. Verify seller details before purchasing.",
      recommendation := "PROCEED WITH CAUTION" }
  else
    { scam_probability := risk_score, red_flags := risk_factors,
      reasoning := "This listing shows multiple warning signs. Exercise extreme caution or avoid.",
      recommendation := "AVOID" }

/-- Result of `get_price_statistics` (`std_dev` carried as `variance`, see
`npVariance`); the source returns `{}` when there are no positive prices,
modelled as `none`. -/
structure PriceStats where
  count : ℕ
  min : ℚ
  max : ℚ
  average : ℚ
  median : ℚ
  variance : ℚ
  range : ℚ
deriving DecidableEq

/-- The outlier filter of `get_price_statistics`: prices `≤ 10 ×` median,
falling back to the unfiltered list when fewer than 2 remain. -/
def statsFilteredPrices (prices : List ℚ) : List ℚ :=
  let median := npMedian prices
  let filtered := prices.filter (fun p => p ≤ median * 10)
  if filtered.length < 2 then prices else filtered

/-- `get_price_statistics`. -/
def get_price_statistics (products : List Product) : Option PriceStats :=
  let prices := positivePrices products
  if prices.length = 0 then none
  else
    let filtered_prices := statsFilteredPrices prices
    some
      { count := prices.length,
        min := listMin filtered_prices,
        max := listMax filtered_prices,
        average := npMean filtered_prices,
        median := npMedian filtered_prices,
        variance := if 1 < filtered_prices.length then npVariance filtered_prices else 0,
        range := listMax filtered_prices - listMin filtered_prices }

/-! ### The pipeline `analyze_products` (fraud_detector.py, step by step)

The Groq capability is an oracle `llm : Bool → Product → Option PriceStats →
Option Analysis` (strong-model flag, annotated product, cohort price
statistics). `enabled` is `self.llm_explainer.enabled`. -/

/-- Step 1 of `analyze_products`: run the validity gate and record the
verdict on the product. -/
def validateStep (query : String) (product : Product) : Product :=
  let v := is_valid_product product query
  { product with is_valid_product := v.1,
                 invalid_reason := if v.1 then none else some v.2 }

/-- Step 2 of `analyze_products`: score one valid product against the cohort
and record score, factors, level and the price-tier annotations. -/
def scoreStep (valid_products : List Product) (product : Product) : Product :=
  let r := calculate_risk product valid_products
  { product with risk_score := some r.score,
                 risk_factors := r.factors,
                 risk_level := some (get_risk_level r.score),
                 price_tier := r.price_tier,
                 price_percentile := r.price_percentile }

/-- The validated batch (step 1 applied to every incoming product). -/
def validatedProducts (query : String) (products : List Product) : List Product :=
  products.map (validateStep query)

/-- `valid_products`: the validated batch filtered to the valid ones. -/
def validProducts (query : String) (products : List Product) : List Product :=
  (validatedProducts query products).filter (fun p => p.is_valid_product)

/-- The valid cohort after scoring (step 2 applied to every valid product;
each product is scored against the cohort's immutable fields, so the order
of the in-place updates in the source is irrelevant). -/
def scoredValid (query : String) (products : List Product) : List Product :=
  (validProducts query products).map (scoreStep (validProducts query products))

/-- `products_to_analyze = high_risk[:3] + medium_risk[:2]` (source line 51):
the first three HIGH-risk and first two MEDIUM-risk products in batch
order. -/
def products_to_analyze (valid_products : List Product) : List Product :=
  ((valid_products.filter (fun p => p.risk_level = some "HIGH")).take 3) ++
  ((valid_products.filter (fun p => p.risk_level = some "MEDIUM")).take 2)

/-- Write a capability result onto a product
(`product['fraud_analysis'] = analysis; product['risk_explanation'] = ...`). -/
def applyAnalysis (product : Product) (a : Analysis) : Product :=
  { product with fraud_analysis := some a, risk_explanation := some a.reasoning }

/-- Step 3 of `analyze_products`: the enrichment loop over
`products_to_analyze`. The source iterates over the first three HIGH and
first two MEDIUM list *objects* and mutates them in place; the embedding
walks the scored list once, carrying how many HIGH / MEDIUM products have
already been passed, which annotates exactly those positions. A product is
only touched when the capability is enabled and returns a result. -/
def enrich (llm : Bool → Product → Option PriceStats → Option Analysis)
    (enabled : Bool) (stats : Option PriceStats) :
    List Product → ℕ → ℕ → List Product
  | [], _, _ => []
  | p :: rest, nHigh, nMedium =>
    let selected := enabled = true ∧
      ((p.risk_level = some "HIGH" ∧ nHigh < 3) ∨
       (p.risk_level = some "MEDIUM" ∧ nMedium < 2))
    let p' :=
      if selected then
        match llm false p stats with
        | some a => applyAnalysis p a
        | none => p
      else p
    p' :: enrich llm enabled stats rest
      (if p.risk_level = some "HIGH" then nHigh + 1 else nHigh)
      (if p.risk_level = some "MEDIUM" then nMedium + 1 else nMedium)

/-- Step 4 of `analyze_products`: back-fill the deterministic default
analysis for every product without one. -/
def fillDefault (product : Product) : Product :=
  if product.fraud_analysis = none then
    { product with fraud_analysis := some (get_default_analysis product) }
  else product

/-- Reassemble the returned batch: the source returns the original `products`
list, in which the valid objects were mutated by steps 2-4; the embedding
splices the processed valid products back into their original positions. -/
def mergeProcessed : List Product → List Product → List Product
  | [], _ => []
  | p :: rest, processed =>
    if p.is_valid_product then
      match processed with
      | q :: qs => q :: mergeProcessed rest qs
      | [] => p :: mergeProcessed rest []
    else p :: mergeProcessed rest processed

/-- `analyze_products`: validate, score, enrich the budgeted subset, fill in
defaults, and return the annotated batch. `get_price_statistics` is invoked
on the (scored) valid cohort, exactly as in the source. -/
def analyze_products (llm : Bool → Product → Option PriceStats → Option Analysis)
    (enabled : Bool) (products : List Product) (query : String) : List Product :=
  let validated := validatedProducts query products
  let scored := scoredValid query products
  let price_stats := get_price_statistics scored
  let enriched := enrich llm enabled price_stats scored 0 0
  let final := enriched.map fillDefault
  mergeProcessed validated final

/-! ### `LLMFraudExplainer.explain_risk` and `batch_explain` (llm_reasoner.py)

`batch_explain` is not invoked by `analyze_products` (its only caller
surface is the class itself); embedded because the escalation policy of
claim C4 lives here. Its semantics hinge on the content cache of
`explain_risk`, so the cache is modelled explicitly here. -/

/-- The cache key of `_get_cache_key`: md5 over title, price and risk level,
modelled as the (title, price, risk level) triple itself. Note that the key
does NOT include the `use_smart_model` flag. -/
abbrev CacheKey := String × ℚ × Option String

/-- The process-wide `self._cache` dictionary, as an association list. -/
abbrev Cache := List (CacheKey × Analysis)

/-- `_get_cache_key(product, risk_level)`. -/
def cacheKey (product : Product) (risk_level : Option String) : CacheKey :=
  (product.title, product.price, risk_level)

/-- Dictionary lookup in the cache. -/
def lookupCache : Cache → CacheKey → Option Analysis
  | [], _ => none
  | (k, a) :: rest, key => if k = key then some a else lookupCache rest key

/-- `explain_risk` with its content cache: a disabled capability returns
`none`; a cached key returns the cached analysis without an external call;
otherwise the external call runs with the chosen model (`llm
use_smart_model ...`) and a success is stored under the key (which ignores
`use_smart_model`); a failed call (`none`) is the source's exception path:
return `None`, cache unchanged. Returns the result and the updated cache. -/
def explain_risk (llm : Bool → Product → Option PriceStats → Option Analysis)
    (enabled : Bool) (cache : Cache) (use_smart_model : Bool) (product : Product)
    (risk_level : Option String) (stats : Option PriceStats) :
    Option Analysis × Cache :=
  if enabled = false then (none, cache)
  else
    match lookupCache cache (cacheKey product risk_level) with
    | some a => (some a, cache)
    | none =>
      match llm use_smart_model product stats with
      | some a => (some a, (cacheKey product risk_level, a) :: cache)
      | none => (none, cache)

/-- One iteration of the `batch_explain` loop: a risky product gets a
fast-model `explain_risk` call; on success, if the scam probability lies in
`[0.4, 0.6]` and the risk level is HIGH, `explain_risk` is re-invoked with
`use_smart_model = true` on the already-mutated product (title, price and
risk level unchanged) and overwrites on success. The `risk_level` argument
of both calls is the loop's local `risk_level = product.get('risk_level')`,
exactly as in the source. -/
def batch_explain_step (llm : Bool → Product → Option PriceStats → Option Analysis)
    (enabled : Bool) (stats : Option PriceStats) (product : Product)
    (cache : Cache) : Product × Cache :=
  if product.risk_level = some "HIGH" ∨ product.risk_level = some "MEDIUM" then
    let r1 := explain_risk llm enabled cache false product product.risk_level stats
    match r1.1 with
    | none => (product, r1.2)
    | some a =>
      let p1 := applyAnalysis product a
      if (0.4 ≤ a.scam_probability ∧ a.scam_probability ≤ 0.6) ∧
          product.risk_level = some "HIGH" then
        let r2 := explain_risk llm enabled r1.2 true p1 product.risk_level stats
        match r2.1 with
        | some b => (applyAnalysis p1 b, r2.2)
        | none => (p1, r2.2)
      else (p1, r1.2)
  else (product, cache)

/-- The `batch_explain` loop over the batch, threading the cache. -/
def batch_explain_go (llm : Bool → Product → Option PriceStats → Option Analysis)
    (enabled : Bool) (stats : Option PriceStats) :
    List Product → Cache → List Product × Cache
  | [], cache => ([], cache)
  | p :: rest, cache =>
    let r := batch_explain_step llm enabled stats p cache
    let rr := batch_explain_go llm enabled stats rest r.2
    (r.1 :: rr.1, rr.2)

/-- `batch_explain`: identity when the capability is disabled, otherwise the
loop above over the batch. -/
def batch_explain (llm : Bool → Product → Option PriceStats → Option Analysis)
    (enabled : Bool) (stats : Option PriceStats) (products : List Product)
    (cache : Cache) : List Product × Cache :=
  if enabled = true then batch_explain_go llm enabled stats products cache
  else (products, cache)

/-! ### Claim-side reference definitions -/

/-- Modelled from the spec (claim C3): the selection the claim asserts —
up to 3 HIGH-risk listings **sorted by descending risk score** (stable on
ties, hence `insertionSort`), plus up to 2 MEDIUM-risk listings. Compared
against the source's `products_to_analyze`. -/
def claimedSelection (valid_products : List Product) : List Product :=
  (((valid_products.filter (fun p => p.risk_level = some "HIGH")).insertionSort
      (fun a b => b.risk_score.getD 0 ≤ a.risk_score.getD 0)).take 3) ++
  ((valid_products.filter (fun p => p.risk_level = some "MEDIUM")).take 2)

/-! ### Concrete demonstration inputs used by witnesses and counterexamples -/

/-- An untrusted generic listing at a given price (used for cohort demos). -/
def widgetAt (price : ℚ) : Product :=
  { title := "Widget Item", price := price, rating := 4, reviews := 10,
    seller := { name := "shopx", rating := 4 }, source := "web", platform := "site" }

/-- The 6-listing cohort of spec section 8 with prices 45/48/50/52/300/55. -/
def cohort6 : List Product :=
  ([45, 48, 50, 52, 300, 55] : List ℚ).map widgetAt

/-- A 2-listing cohort (too small for percentile statistics). -/
def cohort2 : List Product :=
  ([45, 48] : List ℚ).map widgetAt

/-- The listing of the spec's toy scenarios. -/
def kidsCar : Product :=
  { title := "Kids Electric Ride-On Car 12V", price := 80, rating := 0, reviews := 0,
    seller := { name := "some seller", rating := 0 }, source := "ebay", platform := "ebay" }

/-- A listing whose title is too short to pass check 1 of the gate. -/
def shortTitled : Product :=
  { title := "hi", price := 10, rating := 0, reviews := 0,
    seller := { name := "some seller", rating := 0 }, source := "ebay", platform := "ebay" }

/-- A 4-listing cohort whose prices are 1, 1, 1, 100: the median is 1, so the
10-times-median filter drops the 100 and keeps 3 prices. -/
def demo8 : List Product :=
  ([1, 1, 1, 100] : List ℚ).map widgetAt

/-- An oracle that always fails (capability unreachable). -/
def oracleNone (_strong : Bool) (_p : Product) (_s : Option PriceStats) :
    Option Analysis := none

/-- An untrusted laptop listing with the given rating, review count and
seller rating (all at price 100, so the 4-listing demo batch stays below the
5-listing cohort minimum for the price-tier term). -/
def laptopWith (t : String) (ra : ℚ) (re : ℕ) (sr : ℚ) : Product :=
  { title := t, price := 100, rating := ra, reviews := re,
    seller := { name := "shopx", rating := sr }, source := "web", platform := "site" }

/-- Four valid HIGH-risk listings: the first scores 0.55, the other three
score 0.6, so the three highest-scoring ones are the last three, while the
code picks the first three in batch order. -/
def batchC3 : List Product :=
  [laptopWith "Laptop Alpha" 2 3 2, laptopWith "Laptop Beta" 2 0 2,
   laptopWith "Laptop Gamma" 2 0 2, laptopWith "Laptop Delta" 2 0 2]

/-- A fast-model analysis whose scam probability 0.5 lies in the uncertain
band `[0.4, 0.6]`. -/
def analysisWeak : Analysis :=
  { scam_probability := 0.5, red_flags := [], reasoning := "weak model reasoning",
    recommendation := "CAUTION" }

/-- A distinct strong-model analysis. -/
def analysisStrong : Analysis :=
  { scam_probability := 0.9, red_flags := [], reasoning := "strong model reasoning",
    recommendation := "AVOID" }

/-- An oracle that always succeeds: the weak model returns `analysisWeak` and
the strong model returns `analysisStrong`. -/
def oracleEscalate (strong : Bool) (_p : Product) (_s : Option PriceStats) :
    Option Analysis :=
  if strong then some analysisStrong else some analysisWeak

/-- A one-listing batch whose single listing scores 0.6 (HIGH). -/
def batchC4 : List Product :=
  [laptopWith "Laptop Beta" 2 0 2]

/-! ### Claim C6 -/

/-- Claim C6: for every price and every cohort containing fewer than 3
positive prices, `_classify_price_tier` returns tier `unknown` with
percentile 50 and `is_outlier_high = false`, rather than raising an error
(the embedding is a total function, so no exception path exists). -/
theorem C6_small_cohort_unknown_tier (price : ℚ) (all_products : List Product)
    (h : (positivePrices all_products).length < 3) :
    classify_price_tier price all_products =
      { tier := "unknown", percentile := 50, is_outlier_high := false, median := 0 } := by
  unfold classify_price_tier
  simp only [if_pos h]

/-- Witness for C6 at the concrete 2-listing cohort. -/
theorem C6_small_cohort_unknown_tier_witness :
    (positivePrices cohort2).length < 3 ∧
    classify_price_tier 48 cohort2 =
      { tier := "unknown", percentile := 50, is_outlier_high := false, median := 0 } :=
  ⟨by with_unfolding_all decide,
   C6_small_cohort_unknown_tier 48 cohort2 (by with_unfolding_all decide)⟩

/-! ### Claim C5 -/

/-- Claim C5: with at least 3 positive cohort prices, a price strictly above
10 times the cohort median is classified `outlier_high` with percentile 100
and `is_outlier_high = true`, and in particular is never classified
`extremely_cheap`. -/
theorem C5_outlier_high_never_cheap (price : ℚ) (all_products : List Product)
    (h3 : 3 ≤ (positivePrices all_products).length)
    (hout : npMedian (positivePrices all_products) * 10 < price) :
    classify_price_tier price all_products =
      { tier := "outlier_high", percentile := 100, is_outlier_high := true,
        median := npMedian (positivePrices all_products) } ∧
    (classify_price_tier price all_products).tier ≠ "extremely_cheap" := by
  have hnot : ¬ (positivePrices all_products).length < 3 := by omega
  have heq : classify_price_tier price all_products =
      { tier := "outlier_high", percentile := 100, is_outlier_high := true,
        median := npMedian (positivePrices all_products) } := by
    unfold classify_price_tier
    simp only [if_neg hnot, if_pos hout]
  exact ⟨heq, by rw [heq]; simp⟩

/-- Witness for C5: price 5000 in the cohort with prices 45..300
(median 51). -/
theorem C5_outlier_high_never_cheap_witness :
    3 ≤ (positivePrices cohort6).length ∧
    npMedian (positivePrices cohort6) * 10 < 5000 ∧
    classify_price_tier 5000 cohort6 =
      { tier := "outlier_high", percentile := 100, is_outlier_high := true,
        median := npMedian (positivePrices cohort6) } :=
  ⟨by with_unfolding_all decide, by with_unfolding_all decide,
   (C5_outlier_high_never_cheap 5000 cohort6 (by with_unfolding_all decide)
      (by with_unfolding_all decide)).1⟩

/-! ### Claim C9 -/

/-- Sorting the comparison list changes neither the count of cheaper prices
nor the length, hence not the percentile. -/
theorem rawPercentile_insertionSort (price : ℚ) (l : List ℚ) :
    rawPercentile price (l.insertionSort (· ≤ ·)) = rawPercentile price l := by
  unfold rawPercentile
  rw [(l.perm_insertionSort (· ≤ ·)).countP_eq, (l.perm_insertionSort (· ≤ ·)).length_eq]

/-- Claim C9: a listing whose own price appears in the comparison list (the
outlier-filtered cohort prices, after the fallback of step 3) counts itself
in its rank, so its percentile is at least `100 / n`; consequently with
`n < 10` such a listing is never classified `extremely_cheap`. -/
theorem C9_self_rank_floor (price : ℚ) (all_products : List Product)
    (hmem : price ∈ comparisonPrices (positivePrices all_products)) :
    100 / ((comparisonPrices (positivePrices all_products)).length : ℚ) ≤
      rawPercentile price (comparisonPrices (positivePrices all_products)) ∧
    ((comparisonPrices (positivePrices all_products)).length < 10 →
      (classify_price_tier price all_products).tier ≠ "extremely_cheap") := by
  set cl := comparisonPrices (positivePrices all_products) with hcl
  have hlen : 0 < cl.length := List.length_pos.2 (List.ne_nil_of_mem hmem)
  have hlenQ : (0 : ℚ) < (cl.length : ℚ) := by exact_mod_cast hlen
  have hcount : 1 ≤ cl.countP (fun p => decide (p ≤ price)) := by
    have : 0 < cl.countP (fun p => decide (p ≤ price)) :=
      List.countP_pos_iff.2 ⟨price, hmem, by simp⟩
    omega
  have hcountQ : (1 : ℚ) ≤ (cl.countP (fun p => decide (p ≤ price)) : ℚ) := by
    exact_mod_cast hcount
  have hraw : 100 / ((cl.length : ℚ)) ≤ rawPercentile price cl := by
    unfold rawPercentile
    rw [div_mul_eq_mul_div]
    exact (div_le_div_iff_of_pos_right hlenQ).2 (by linarith)
  refine ⟨hraw, fun hn => ?_⟩
  have hn10 : (10 : ℚ) < 100 / (cl.length : ℚ) := by
    rw [lt_div_iff₀ hlenQ]
    have : (cl.length : ℚ) < 10 := by exact_mod_cast hn
    linarith
  have hgt : 10 < rawPercentile price cl := lt_of_lt_of_le hn10 hraw
  simp only [classify_price_tier]
  split
  · simp
  · split
    · simp
    · simp only
      rw [← hcl, rawPercentile_insertionSort]
      unfold tierOfPercentile
      rw [if_neg (by linarith)]
      split
      · simp
      · split
        · simp
        · split <;> simp

/-- Witness for C9: price 48 in the 6-price cohort; the comparison list keeps
all 6 prices, so the percentile is at least 100/6 and the tier is not
`extremely_cheap`. -/
theorem C9_self_rank_floor_witness :
    (48 : ℚ) ∈ comparisonPrices (positivePrices cohort6) ∧
    (comparisonPrices (positivePrices cohort6)).length < 10 ∧
    (classify_price_tier 48 cohort6).tier ≠ "extremely_cheap" :=
  ⟨by with_unfolding_all decide, by with_unfolding_all decide,
   (C9_self_rank_floor 48 cohort6 (by with_unfolding_all decide)).2
     (by with_unfolding_all decide)⟩

/-! ### Claims C7 and C10: toy-search intent suppresses toy rejection -/

/-- When the query targets toys, check 4 of the gate (toy detection) is
skipped, so a rejection can only carry one of the three non-toy reasons. -/
theorem toy_query_no_toy_reject (product : Product) (query : String)
    (htoy : is_searching_for_toys query = true)
    (hrej : (is_valid_product product query).1 = false) :
    (is_valid_product product query).2 ∈
      ["Invalid or missing title", "No valid price found",
       "Contains multiple spam/scam keywords"] := by
  revert hrej
  unfold is_valid_product
  simp only [htoy]
  split
  · intro _; simp
  · split
    · intro _; simp
    · split
      · intro _; simp
      · split
        · rename_i hcond
          simp at hcond
        · split
          · intro h; simp at h
          · intro h; simp at h

/-- Claim C7: a toy-directed query suppresses toy rejection entirely (any
rejection then carries a non-toy reason); with query "toy car" the
kids/ride-on listing passes the gate, while with query "car" the very same
listing is rejected as a toy. -/
theorem C7_toy_intent_scenarios :
    (∀ (product : Product) (query : String),
      is_searching_for_toys query = true →
      (is_valid_product product query).1 = false →
      (is_valid_product product query).2 ∈
        ["Invalid or missing title", "No valid price found",
         "Contains multiple spam/scam keywords"]) ∧
    is_valid_product kidsCar "toy car" = (true, "Valid product") ∧
    is_valid_product kidsCar "car" =
      (false, "Product is a toy (contains toy indicators)") :=
  ⟨toy_query_no_toy_reject, by with_unfolding_all decide, by with_unfolding_all decide⟩

/-- Witness for C7: the general clause applied at the short-titled listing
with the toy query "toy car". -/
theorem C7_toy_intent_scenarios_witness :
    is_searching_for_toys "toy car" = true ∧
    (is_valid_product shortTitled "toy car").1 = false ∧
    (is_valid_product shortTitled "toy car").2 ∈
      ["Invalid or missing title", "No valid price found",
       "Contains multiple spam/scam keywords"] :=
  ⟨by with_unfolding_all decide, by with_unfolding_all decide,
   C7_toy_intent_scenarios.1 shortTitled "toy car"
     (by with_unfolding_all decide) (by with_unfolding_all decide)⟩

/-- Claim C10: any query containing one of the fixed substrings
toy/toys/kids/children/toddler/baby — including "baby monitor" — disables
toy detection for the whole batch: no rejection reason can be a toy
rejection, whatever the listing's title or price. -/
theorem C10_toy_substring_disables_toy_detection (product : Product) (query : String)
    (hsub : (["toy", "toys", "kids", "children", "toddler", "baby"].any
      (fun term => strContains (strLower query) term)) = true)
    (hrej : (is_valid_product product query).1 = false) :
    (is_valid_product product query).2 ∈
      ["Invalid or missing title", "No valid price found",
       "Contains multiple spam/scam keywords"] :=
  toy_query_no_toy_reject product query hsub hrej

/-- Witness for C10 at the non-toy query "baby monitor": the short-titled
listing is rejected, and the reason is one of the non-toy reasons. -/
theorem C10_toy_substring_disables_toy_detection_witness :
    (["toy", "toys", "kids", "children", "toddler", "baby"].any
      (fun term => strContains (strLower "baby monitor") term)) = true ∧
    (is_valid_product shortTitled "baby monitor").1 = false ∧
    (is_valid_product shortTitled "baby monitor").2 ∈
      ["Invalid or missing title", "No valid price found",
       "Contains multiple spam/scam keywords"] :=
  ⟨by with_unfolding_all decide, by with_unfolding_all decide,
   C10_toy_substring_disables_toy_detection shortTitled "baby monitor"
     (by with_unfolding_all decide) (by with_unfolding_all decide)⟩

/-! ### Claim C2: score bounds and threshold banding -/

/-- The price-tier contribution is never negative. -/
theorem priceTierTerm_nonneg (t : Bool) (pf : String) (rv : ℕ) (pr : ℚ)
    (ti : TierInfo) : 0 ≤ (priceTierTerm t pf rv pr ti).1 := by
  unfold priceTierTerm
  repeat' split
  all_goals norm_num

/-- The rating contribution is never negative. -/
theorem ratingTerm_nonneg (t : Bool) (r : ℚ) : 0 ≤ (ratingTerm t r).1 := by
  unfold ratingTerm
  split <;> (try split) <;> norm_num

/-- The review-count contribution is never negative. -/
theorem reviewsTerm_nonneg (t : Bool) (rv : ℕ) : 0 ≤ (reviewsTerm t rv).1 := by
  unfold reviewsTerm
  split <;> (try split) <;> norm_num

/-- The seller-rating contribution is never negative. -/
theorem sellerRatingTerm_nonneg (sr : ℚ) : 0 ≤ (sellerRatingTerm sr).1 := by
  unfold sellerRatingTerm
  split <;> norm_num

/-- The composite risk score lies in the unit interval. -/
theorem calculate_risk_score_mem_unit (product : Product) (all_products : List Product) :
    0 ≤ (calculate_risk product all_products).score ∧
    (calculate_risk product all_products).score ≤ 1 := by
  unfold calculate_risk
  have h2 := ratingTerm_nonneg (is_trusted product) product.rating
  have h3 := reviewsTerm_nonneg (is_trusted product) product.reviews
  have h4 := sellerRatingTerm_nonneg product.seller.rating
  split
  · have h1 := priceTierTerm_nonneg (is_trusted product) (strLower product.platform)
      product.reviews product.price (classify_price_tier product.price all_products)
    constructor
    · exact le_min (by linarith) (by norm_num)
    · exact min_le_right _ _
  · constructor
    · exact le_min (by linarith) (by norm_num)
    · exact min_le_right _ _

/-- Claim C2: every risk score returned by `_calculate_risk` lies in `[0, 1]`,
and in the pipeline the risk level recorded on a listing is exactly the
fixed-threshold banding (0.55 / 0.25) of its own recorded score. -/
theorem C2_score_bounds_and_banding (product : Product) (all_products : List Product)
    (query : String) (products : List Product) (p : Product)
    (hp : p ∈ scoredValid query products) :
    (0 ≤ (calculate_risk product all_products).score ∧
     (calculate_risk product all_products).score ≤ 1) ∧
    ∃ s, p.risk_score = some s ∧ 0 ≤ s ∧ s ≤ 1 ∧
      p.risk_level =
        some (if 0.55 ≤ s then "HIGH" else if 0.25 ≤ s then "MEDIUM" else "LOW") := by
  refine ⟨calculate_risk_score_mem_unit product all_products, ?_⟩
  unfold scoredValid at hp
  obtain ⟨v, _, rfl⟩ := List.mem_map.1 hp
  refine ⟨(calculate_risk v (validProducts query products)).score, rfl, ?_, ?_, rfl⟩
  · exact (calculate_risk_score_mem_unit v (validProducts query products)).1
  · exact (calculate_risk_score_mem_unit v (validProducts query products)).2

/-- Witness for C2 at the first listing of a concrete scored batch. -/
theorem C2_score_bounds_and_banding_witness :
    ((scoredValid "gadget" cohort6).getD 0 default) ∈ scoredValid "gadget" cohort6 ∧
    ∃ s, ((scoredValid "gadget" cohort6).getD 0 default).risk_score = some s ∧
      0 ≤ s ∧ s ≤ 1 ∧
      ((scoredValid "gadget" cohort6).getD 0 default).risk_level =
        some (if 0.55 ≤ s then "HIGH" else if 0.25 ≤ s then "MEDIUM" else "LOW") :=
  ⟨by with_unfolding_all decide,
   (C2_score_bounds_and_banding default [] "gadget" cohort6
      ((scoredValid "gadget" cohort6).getD 0 default)
      (by with_unfolding_all decide)).2⟩

/-! ### Claim C8: orchestrator price statistics and the outlier filter -/

/-- Counterexample to claim C8 as stated: the claim says all of the
statistics, including `count`, are computed over the outlier-filtered price
set; on `demo8` the filtered set has 3 elements, yet the reported `count`
is 4, the size of the unfiltered positive-price list. -/
theorem C8_count_not_filtered_counterexample :
    (get_price_statistics demo8).map (fun s => s.count) = some 4 ∧
    (statsFilteredPrices (positivePrices demo8)).length = 3 ∧
    (get_price_statistics demo8).map (fun s => s.max) = some 1 := by
  refine ⟨?_, ?_, ?_⟩ <;> with_unfolding_all decide

/-- Claim C8 as amended: `min`, `max`, `average`, `median`, standard
deviation (carried as `variance`) and `range` are computed over the
10-times-median outlier-filtered price set, while `count` is computed over
the unfiltered positive prices. (Stated when at least 2 prices survive the
filter; below that the statistics fall back to the unfiltered list.) -/
theorem C8_stats_fields_amended (products : List Product)
    (hpos : 0 < (positivePrices products).length)
    (hkeep : 2 ≤ ((positivePrices products).filter
      (fun p => p ≤ npMedian (positivePrices products) * 10)).length) :
    get_price_statistics products =
      some
        { count := (positivePrices products).length,
          min := listMin ((positivePrices products).filter
            (fun p => p ≤ npMedian (positivePrices products) * 10)),
          max := listMax ((positivePrices products).filter
            (fun p => p ≤ npMedian (positivePrices products) * 10)),
          average := npMean ((positivePrices products).filter
            (fun p => p ≤ npMedian (positivePrices products) * 10)),
          median := npMedian ((positivePrices products).filter
            (fun p => p ≤ npMedian (positivePrices products) * 10)),
          variance :=
            if 1 < ((positivePrices products).filter
                (fun p => p ≤ npMedian (positivePrices products) * 10)).length then
              npVariance ((positivePrices products).filter
                (fun p => p ≤ npMedian (positivePrices products) * 10))
            else 0,
          range := listMax ((positivePrices products).filter
              (fun p => p ≤ npMedian (positivePrices products) * 10)) -
            listMin ((positivePrices products).filter
              (fun p => p ≤ npMedian (positivePrices products) * 10)) } := by
  have hfil : statsFilteredPrices (positivePrices products) =
      (positivePrices products).filter
        (fun p => p ≤ npMedian (positivePrices products) * 10) := by
    simp only [statsFilteredPrices]
    rw [if_neg (show ¬ ((positivePrices products).filter
      (fun p => p ≤ npMedian (positivePrices products) * 10)).length < 2 by omega)]
  unfold get_price_statistics
  rw [if_neg (by omega), hfil]

/-- Witness for the amended C8 on the `demo8` cohort. -/
theorem C8_stats_fields_amended_witness :
    0 < (positivePrices demo8).length ∧
    2 ≤ ((positivePrices demo8).filter
      (fun p => p ≤ npMedian (positivePrices demo8) * 10)).length ∧
    get_price_statistics demo8 =
      some
        { count := (positivePrices demo8).length,
          min := listMin ((positivePrices demo8).filter
            (fun p => p ≤ npMedian (positivePrices demo8) * 10)),
          max := listMax ((positivePrices demo8).filter
            (fun p => p ≤ npMedian (positivePrices demo8) * 10)),
          average := npMean ((positivePrices demo8).filter
            (fun p => p ≤ npMedian (positivePrices demo8) * 10)),
          median := npMedian ((positivePrices demo8).filter
            (fun p => p ≤ npMedian (positivePrices demo8) * 10)),
          variance :=
            if 1 < ((positivePrices demo8).filter
                (fun p => p ≤ npMedian (positivePrices demo8) * 10)).length then
              npVariance ((positivePrices demo8).filter
                (fun p => p ≤ npMedian (positivePrices demo8) * 10))
            else 0,
          range := listMax ((positivePrices demo8).filter
              (fun p => p ≤ npMedian (positivePrices demo8) * 10)) -
            listMin ((positivePrices demo8).filter
              (fun p => p ≤ npMedian (positivePrices demo8) * 10)) } :=
  ⟨by with_unfolding_all decide, by with_unfolding_all decide,
   C8_stats_fields_amended demo8 (by with_unfolding_all decide)
     (by with_unfolding_all decide)⟩

/-! ### Structural lemmas about the pipeline stages -/

/-- Validation does not touch the fraud-analysis annotation. -/
theorem validateStep_fraud_analysis (query : String) (p : Product) :
    (validateStep query p).fraud_analysis = p.fraud_analysis := rfl

/-- Validation does not touch the risk-explanation annotation. -/
theorem validateStep_risk_explanation (query : String) (p : Product) :
    (validateStep query p).risk_explanation = p.risk_explanation := rfl

/-- Scoring does not touch the fraud-analysis annotation. -/
theorem scoreStep_fraud_analysis (l : List Product) (p : Product) :
    (scoreStep l p).fraud_analysis = p.fraud_analysis := rfl

/-- Scoring does not touch the risk-explanation annotation. -/
theorem scoreStep_risk_explanation (l : List Product) (p : Product) :
    (scoreStep l p).risk_explanation = p.risk_explanation := rfl

/-- Every scored valid product still carries the incoming fraud-analysis and
risk-explanation annotations of the original listing. -/
theorem scoredValid_annotations (query : String) (products : List Product)
    (hfresh : ∀ p ∈ products, p.fraud_analysis = none ∧ p.risk_explanation = none)
    (p : Product) (hp : p ∈ scoredValid query products) :
    p.fraud_analysis = none ∧ p.risk_explanation = none := by
  unfold scoredValid at hp
  obtain ⟨v, hv, rfl⟩ := List.mem_map.1 hp
  unfold validProducts at hv
  have hv' := List.mem_of_mem_filter hv
  unfold validatedProducts at hv'
  obtain ⟨v0, hv0, rfl⟩ := List.mem_map.1 hv'
  obtain ⟨h1, h2⟩ := hfresh v0 hv0
  rw [scoreStep_fraud_analysis, scoreStep_risk_explanation,
    validateStep_fraud_analysis, validateStep_risk_explanation]
  exact ⟨h1, h2⟩

/-- Resetting the two enrichment annotations of a product that never had them
is the identity. -/
theorem reset_annotations (p : Product) (h1 : p.fraud_analysis = none)
    (h2 : p.risk_explanation = none) :
    ({ p with fraud_analysis := none, risk_explanation := none } : Product) = p := by
  cases p
  simp_all

/-- The default analysis ignores the fraud-analysis and risk-explanation
annotations. -/
theorem get_default_analysis_reset (p : Product) (x : Option Analysis) (y : Option String) :
    get_default_analysis { p with fraud_analysis := x, risk_explanation := y } =
      get_default_analysis p := rfl

/-- Enrichment preserves the length of the batch. -/
theorem enrich_length (llm : Bool → Product → Option PriceStats → Option Analysis)
    (enabled : Bool) (stats : Option PriceStats) (l : List Product) :
    ∀ (nHigh nMedium : ℕ), (enrich llm enabled stats l nHigh nMedium).length = l.length := by
  induction l with
  | nil => intro nH nM; rfl
  | cons p rest IH => intro nH nM; simp [enrich, IH]

/-- Every product of the enriched batch is either an untouched member of the
input batch or a member with a successful capability result written on it. -/
theorem mem_enrich (llm : Bool → Product → Option PriceStats → Option Analysis)
    (enabled : Bool) (stats : Option PriceStats) (l : List Product) :
    ∀ (nHigh nMedium : ℕ) (q : Product), q ∈ enrich llm enabled stats l nHigh nMedium →
      ∃ p ∈ l, q = p ∨ ∃ a, llm false p stats = some a ∧ q = applyAnalysis p a := by
  induction l with
  | nil => intro nH nM q hq; simp [enrich] at hq
  | cons p rest IH =>
    intro nH nM q hq
    simp only [enrich, List.mem_cons] at hq
    rcases hq with hq | hq
    · refine ⟨p, List.mem_cons_self p rest, ?_⟩
      subst hq
      split
      · cases hllm : llm false p stats with
        | none => simp [hllm]
        | some a => right; exact ⟨a, rfl, by simp [hllm]⟩
      · left; rfl
    · obtain ⟨p', hp', hcase⟩ := IH _ _ q hq
      exact ⟨p', List.mem_cons_of_mem p hp', hcase⟩

/-- Splicing the processed valid products back keeps every valid member of
the result inside the processed list (as long as the processed list is long
enough, which the pipeline guarantees by construction). -/
theorem mem_mergeProcessed (l : List Product) :
    ∀ (f : List Product) (q : Product),
      (l.filter (fun p => p.is_valid_product)).length ≤ f.length →
      q ∈ mergeProcessed l f →
      (q ∈ l ∧ q.is_valid_product = false) ∨ q ∈ f := by
  induction l with
  | nil => intro f q _ hq; simp [mergeProcessed] at hq
  | cons p rest IH =>
    intro f q hlen hq
    by_cases hv : p.is_valid_product
    · have hcount : ((p :: rest).filter (fun p => p.is_valid_product)).length =
          ((rest.filter (fun p => p.is_valid_product)).length) + 1 := by
        simp [List.filter_cons, hv]
      cases f with
      | nil => rw [hcount] at hlen; simp only [List.length_nil] at hlen; omega
      | cons q0 qs =>
        simp only [mergeProcessed, if_pos hv, List.mem_cons] at hq
        rcases hq with rfl | hq
        · right; exact List.mem_cons_self _ _
        · rcases IH qs q (by rw [hcount] at hlen; simpa using hlen) hq with ⟨h1, h2⟩ | h
          · exact Or.inl ⟨List.mem_cons_of_mem p h1, h2⟩
          · exact Or.inr (List.mem_cons_of_mem _ h)
    · simp only [mergeProcessed, if_neg hv, List.mem_cons] at hq
      rcases hq with rfl | hq
      · exact Or.inl ⟨List.mem_cons_self q rest, by simpa using hv⟩
      · rcases IH f q (by simpa [List.filter_cons, hv] using hlen) hq with ⟨h1, h2⟩ | h
        · exact Or.inl ⟨List.mem_cons_of_mem p h1, h2⟩
        · exact Or.inr h

/-- Indexwise characterization of the enrichment loop, with arbitrary
starting counters: position `i` is annotated exactly when the capability is
enabled and the product is among the first `3 - nHigh` HIGH (respectively
first `2 - nMedium` MEDIUM) products of the list. -/
theorem enrich_getD (llm : Bool → Product → Option PriceStats → Option Analysis)
    (enabled : Bool) (stats : Option PriceStats) (l : List Product) :
    ∀ (nHigh nMedium i : ℕ), i < l.length →
    (enrich llm enabled stats l nHigh nMedium).getD i default =
      (if enabled = true ∧
          ((l.getD i default).risk_level = some "HIGH" ∧
             nHigh + (l.take i).countP (fun q => decide (q.risk_level = some "HIGH")) < 3 ∨
           (l.getD i default).risk_level = some "MEDIUM" ∧
             nMedium + (l.take i).countP (fun q => decide (q.risk_level = some "MEDIUM")) < 2) then
         match llm false (l.getD i default) stats with
         | some a => applyAnalysis (l.getD i default) a
         | none => l.getD i default
       else l.getD i default) := by
  induction l with
  | nil => intro nH nM i hi; simp at hi
  | cons p rest IH =>
    intro nH nM i hi
    cases i with
    | zero => simp [enrich]
    | succ i =>
      have hi' : i < rest.length := by simpa using hi
      have hH : (if p.risk_level = some "HIGH" then nH + 1 else nH) +
          (rest.take i).countP (fun q => decide (q.risk_level = some "HIGH")) =
          nH + ((rest.take i).countP (fun q => decide (q.risk_level = some "HIGH")) +
            if p.risk_level = some "HIGH" then 1 else 0) := by
        split <;> omega
      have hM : (if p.risk_level = some "MEDIUM" then nM + 1 else nM) +
          (rest.take i).countP (fun q => decide (q.risk_level = some "MEDIUM")) =
          nM + ((rest.take i).countP (fun q => decide (q.risk_level = some "MEDIUM")) +
            if p.risk_level = some "MEDIUM" then 1 else 0) := by
        split <;> omega
      simp only [enrich, List.getD_cons_succ, List.take_succ_cons, List.countP_cons,
        decide_eq_true_eq]
      rw [IH _ _ i hi', hH, hM]

/-- Provenance of the fraud-analysis annotation after a full pipeline run:
every valid listing ends with exactly one analysis, which is either its own
deterministic default (and then no risk explanation was written) or a
successful capability result on the listing as it stood before enrichment. -/
theorem pipelineAnalysisProvenance
    (llm : Bool → Product → Option PriceStats → Option Analysis) (enabled : Bool)
    (products : List Product) (query : String)
    (hfresh : ∀ p ∈ products, p.fraud_analysis = none ∧ p.risk_explanation = none)
    (q : Product) (hq : q ∈ analyze_products llm enabled products query)
    (hv : q.is_valid_product = true) :
    ∃ a, q.fraud_analysis = some a ∧
      ((q.risk_explanation = none ∧ a = get_default_analysis q) ∨
       (q.risk_explanation = some a.reasoning ∧
        llm false { q with fraud_analysis := none, risk_explanation := none }
          (get_price_statistics (scoredValid query products)) = some a)) := by
  simp only [analyze_products] at hq
  have hlen : ((validatedProducts query products).filter
      (fun p => p.is_valid_product)).length ≤
      ((enrich llm enabled (get_price_statistics (scoredValid query products))
        (scoredValid query products) 0 0).map fillDefault).length := by
    rw [List.length_map, enrich_length]
    unfold scoredValid
    rw [List.length_map]
    exact le_of_eq rfl
  rcases mem_mergeProcessed _ _ q hlen hq with ⟨_, hbad⟩ | hfin
  · rw [hv] at hbad; cases hbad
  · obtain ⟨e, he, rfl⟩ := List.mem_map.1 hfin
    obtain ⟨p, hp, hcase⟩ := mem_enrich llm enabled _ _ _ _ e he
    obtain ⟨hpf, hpe⟩ := scoredValid_annotations query products hfresh p hp
    rcases hcase with heq | ⟨a, hllm, heq⟩
    all_goals subst heq
    · refine ⟨get_default_analysis e, ?_, Or.inl ⟨?_, ?_⟩⟩
      · unfold fillDefault
        rw [if_pos hpf]
      · unfold fillDefault
        rw [if_pos hpf]
        exact hpe
      · unfold fillDefault
        rw [if_pos hpf]
        exact (get_default_analysis_reset e (some (get_default_analysis e))
          e.risk_explanation).symm
    · have hne : (applyAnalysis p a).fraud_analysis = some a := rfl
      have hfd : fillDefault (applyAnalysis p a) = applyAnalysis p a := by
        unfold fillDefault
        rw [hne]
        simp
      rw [hfd]
      refine ⟨a, rfl, Or.inr ⟨rfl, ?_⟩⟩
      have hreset : ({ applyAnalysis p a with
          fraud_analysis := none, risk_explanation := none } : Product) = p := by
        have : ({ applyAnalysis p a with
            fraud_analysis := none, risk_explanation := none } : Product) =
            { p with fraud_analysis := none, risk_explanation := none } := rfl
        rw [this, reset_annotations p hpf hpe]
      rw [hreset]
      exact hllm

/-! ### Claim C1 -/

/-- Claim C1: after a full pipeline run on fresh listings, every listing that
passed the validity gate carries exactly one fraud analysis — the `Option`
field holds a single value, and that value is either the listing's own
deterministic default (risk explanation still unset) or a result the
explanation capability produced for it (risk explanation set alongside it);
this holds for every oracle, so in particular whether the capability is
enabled or any individual call fails. -/
theorem C1_exactly_one_fraud_analysis
    (llm : Bool → Product → Option PriceStats → Option Analysis) (enabled : Bool)
    (products : List Product) (query : String)
    (hfresh : ∀ p ∈ products, p.fraud_analysis = none ∧ p.risk_explanation = none)
    (q : Product) (hq : q ∈ analyze_products llm enabled products query)
    (hv : q.is_valid_product = true) :
    ∃ a, q.fraud_analysis = some a ∧
      ((q.risk_explanation = none ∧ a = get_default_analysis q) ∨
       (q.risk_explanation = some a.reasoning ∧
        llm false { q with fraud_analysis := none, risk_explanation := none }
          (get_price_statistics (scoredValid query products)) = some a)) :=
  pipelineAnalysisProvenance llm enabled products query hfresh q hq hv

/-- Witness for C1: a one-listing batch processed with an unreachable
capability still ends with exactly one (default) analysis. -/
theorem C1_exactly_one_fraud_analysis_witness :
    (∀ p ∈ [widgetAt 45], p.fraud_analysis = none ∧ p.risk_explanation = none) ∧
    ((analyze_products oracleNone true [widgetAt 45] "gadget").getD 0 default ∈
      analyze_products oracleNone true [widgetAt 45] "gadget") ∧
    ∃ a, ((analyze_products oracleNone true [widgetAt 45] "gadget").getD 0
        default).fraud_analysis = some a :=
  ⟨by with_unfolding_all decide, by with_unfolding_all decide,
   match C1_exactly_one_fraud_analysis oracleNone true [widgetAt 45] "gadget"
      (by with_unfolding_all decide) _ (by with_unfolding_all decide)
      (by with_unfolding_all decide) with
   | ⟨a, ha, _⟩ => ⟨a, ha⟩⟩

/-! ### Claim C3 -/

/-- Counterexample to claim C3 as stated: on a batch of four HIGH-risk
listings with scores 0.55, 0.6, 0.6, 0.6 (in that order), the highest-score-
first selection contains the fourth listing, but the code's selection
(`high_risk[:3]` in batch order) does not — it keeps the first, lowest-
scoring one instead. -/
theorem C3_selection_not_by_score_counterexample :
    ((scoredValid "laptop" batchC3).map (fun p => p.risk_score) =
      [some 0.55, some 0.6, some 0.6, some 0.6]) ∧
    ((scoredValid "laptop" batchC3).map (fun p => p.risk_level) =
      [some "HIGH", some "HIGH", some "HIGH", some "HIGH"]) ∧
    ((products_to_analyze (scoredValid "laptop" batchC3)).map (fun p => p.title) =
      ["Laptop Alpha", "Laptop Beta", "Laptop Gamma"]) ∧
    ((claimedSelection (scoredValid "laptop" batchC3)).map (fun p => p.title) =
      ["Laptop Beta", "Laptop Gamma", "Laptop Delta"]) ∧
    ((claimedSelection (scoredValid "laptop" batchC3)).any
      (fun q => !(products_to_analyze (scoredValid "laptop" batchC3)).contains q) = true) := by
  refine ⟨?_, ?_, ?_, ?_, ?_⟩ <;> with_unfolding_all decide

/-- Claim C3 as amended: the batch position `i` is enriched exactly when the
capability is enabled and the listing is HIGH-risk with fewer than 3 HIGH-
risk listings before it, or MEDIUM-risk with fewer than 2 MEDIUM-risk
listings before it — i.e. the first 3 HIGH plus first 2 MEDIUM in original
batch order, with no reordering by score; and every valid listing that was
not enriched (its risk explanation is still unset) ends the run with the
deterministic default explanation. -/
theorem C3_first_in_order_selection_amended :
    (∀ (llm : Bool → Product → Option PriceStats → Option Analysis)
       (enabled : Bool) (stats : Option PriceStats) (l : List Product) (i : ℕ),
      i < l.length →
      (enrich llm enabled stats l 0 0).getD i default =
        (if enabled = true ∧
            ((l.getD i default).risk_level = some "HIGH" ∧
               (l.take i).countP (fun q => decide (q.risk_level = some "HIGH")) < 3 ∨
             (l.getD i default).risk_level = some "MEDIUM" ∧
               (l.take i).countP (fun q => decide (q.risk_level = some "MEDIUM")) < 2) then
           match llm false (l.getD i default) stats with
           | some a => applyAnalysis (l.getD i default) a
           | none => l.getD i default
         else l.getD i default)) ∧
    (∀ (llm : Bool → Product → Option PriceStats → Option Analysis)
       (enabled : Bool) (products : List Product) (query : String),
      (∀ p ∈ products, p.fraud_analysis = none ∧ p.risk_explanation = none) →
      ∀ q ∈ analyze_products llm enabled products query,
        q.is_valid_product = true → q.risk_explanation = none →
        q.fraud_analysis = some (get_default_analysis q)) := by
  constructor
  · intro llm enabled stats l i hi
    have h := enrich_getD llm enabled stats l 0 0 i hi
    simpa using h
  · intro llm enabled products query hfresh q hq hv hexp
    obtain ⟨a, ha, hcase⟩ :=
      pipelineAnalysisProvenance llm enabled products query hfresh q hq hv
    rcases hcase with ⟨_, rfl⟩ | ⟨hsome, _⟩
    · exact ha
    · rw [hexp] at hsome
      cases hsome

/-- Witness for the amended C3: on the scored four-HIGH batch with an
all-failing capability, position 3 (the fourth listing) is past the HIGH
budget, so the characterization yields the untouched listing; and the first
listing of the pipeline output is valid, unexplained and carries its default
analysis. -/
theorem C3_first_in_order_selection_amended_witness :
    (3 < (scoredValid "laptop" batchC3).length ∧
      (enrich oracleNone true none (scoredValid "laptop" batchC3) 0 0).getD 3 default =
        (scoredValid "laptop" batchC3).getD 3 default) ∧
    ((analyze_products oracleNone true batchC3 "laptop").getD 0 default).fraud_analysis =
      some (get_default_analysis
        ((analyze_products oracleNone true batchC3 "laptop").getD 0 default)) := by
  constructor
  · refine ⟨by with_unfolding_all decide, ?_⟩
    have h := C3_first_in_order_selection_amended.1 oracleNone true none
      (scoredValid "laptop" batchC3) 3 (by with_unfolding_all decide)
    rw [h]
    with_unfolding_all decide
  · exact C3_first_in_order_selection_amended.2 oracleNone true batchC3 "laptop"
      (by with_unfolding_all decide) _ (by with_unfolding_all decide)
      (by with_unfolding_all decide) (by with_unfolding_all decide)

/-! ### Claim C4 -/

/-- Counterexample to claim C4 as stated: the selected listing is HIGH-risk,
the fast-model result has scam probability 0.5 in `[0.4, 0.6]`, and the
strong-model re-invocation would succeed with a different result — yet the
pipeline keeps the fast-model result, because `analyze_products` never
re-invokes the capability with the strong-model flag. -/
theorem C4_no_escalation_counterexample :
    ((scoredValid "laptop" batchC4).map (fun p => p.risk_level) = [some "HIGH"]) ∧
    analysisWeak.scam_probability = 0.5 ∧
    ((analyze_products oracleEscalate true batchC4 "laptop").map
      (fun p => p.fraud_analysis) = [some analysisWeak]) ∧
    oracleEscalate true
      ((enrich oracleEscalate true (get_price_statistics (scoredValid "laptop" batchC4))
        (scoredValid "laptop" batchC4) 0 0).getD 0 default)
      (get_price_statistics (scoredValid "laptop" batchC4)) = some analysisStrong ∧
    analysisStrong ≠ analysisWeak := by
  refine ⟨?_, ?_, ?_, ?_, ?_⟩ <;> with_unfolding_all decide

/-- Enrichment only ever consults the fast model: the pipeline's output is
invariant under changing what the oracle returns for the strong model. -/
theorem enrich_fast_model_only
    (llm llm' : Bool → Product → Option PriceStats → Option Analysis)
    (enabled : Bool) (stats : Option PriceStats)
    (hfast : ∀ p s, llm false p s = llm' false p s) (l : List Product) :
    ∀ (nHigh nMedium : ℕ),
      enrich llm enabled stats l nHigh nMedium = enrich llm' enabled stats l nHigh nMedium := by
  induction l with
  | nil => intro nH nM; rfl
  | cons p rest IH =>
    intro nH nM
    simp only [enrich, hfast p stats, IH]

/-- A successful fast-model call leaves its result in the cache under the
(title, price, risk level) key. -/
theorem explain_risk_caches_success
    (llm : Bool → Product → Option PriceStats → Option Analysis)
    (cache : Cache) (p : Product) (lvl : Option String) (stats : Option PriceStats)
    (a : Analysis)
    (h : (explain_risk llm true cache false p lvl stats).1 = some a) :
    lookupCache ((explain_risk llm true cache false p lvl stats).2)
      (cacheKey p lvl) = some a := by
  revert h
  unfold explain_risk
  rw [if_neg (by decide)]
  cases hc : lookupCache cache (cacheKey p lvl) with
  | some a0 =>
    intro h
    exact hc.trans h
  | none =>
    cases hl : llm false p stats with
    | some a1 =>
      intro h
      have h1 : a1 = a := Option.some.inj h
      subst h1
      show lookupCache ((cacheKey p lvl, a1) :: cache) (cacheKey p lvl) = some a1
      simp [lookupCache]
    | none =>
      intro h
      exact Option.noConfusion (show (none : Option Analysis) = some a from h)

/-- Any `explain_risk` call whose key is already cached returns the cached
analysis and never consults the external model, whatever the
`use_smart_model` flag. -/
theorem explain_risk_hit (llm : Bool → Product → Option PriceStats → Option Analysis)
    (cache : Cache) (strong : Bool) (p : Product) (lvl : Option String)
    (stats : Option PriceStats) (a : Analysis)
    (h : lookupCache cache (cacheKey p lvl) = some a) :
    explain_risk llm true cache strong p lvl stats = (some a, cache) := by
  unfold explain_risk
  rw [if_neg (by decide), h]

/-- `explain_risk` with the fast model only depends on the oracle's
fast-model behavior. -/
theorem explain_risk_fast_agrees
    (llm llm' : Bool → Product → Option PriceStats → Option Analysis)
    (enabled : Bool) (cache : Cache) (p : Product) (lvl : Option String)
    (stats : Option PriceStats)
    (hfast : ∀ p s, llm false p s = llm' false p s) :
    explain_risk llm enabled cache false p lvl stats =
      explain_risk llm' enabled cache false p lvl stats := by
  unfold explain_risk
  rw [hfast p stats]

/-- `batch_explain_step` never consults the strong model: its escalation call
always hits the cache entry the fast call just produced, so the whole step
only depends on the oracle's fast-model behavior. -/
theorem batch_explain_step_fast_only
    (llm llm' : Bool → Product → Option PriceStats → Option Analysis)
    (enabled : Bool) (stats : Option PriceStats) (p : Product) (cache : Cache)
    (hfast : ∀ p s, llm false p s = llm' false p s) :
    batch_explain_step llm enabled stats p cache =
      batch_explain_step llm' enabled stats p cache := by
  unfold batch_explain_step
  split
  · rw [explain_risk_fast_agrees llm llm' enabled cache p p.risk_level stats hfast]
    cases hr : (explain_risk llm' enabled cache false p p.risk_level stats).1 with
    | none => simp only [hr]
    | some a =>
      simp only [hr]
      split
      · cases henabled : enabled with
        | false =>
          exfalso
          rw [henabled] at hr
          exact Option.noConfusion
            (show (none : Option Analysis) = some a from hr)
        | true =>
          subst henabled
          have hhit := explain_risk_caches_success llm' cache p p.risk_level stats a hr
          rw [explain_risk_hit llm _ true (applyAnalysis p a) p.risk_level stats a hhit,
            explain_risk_hit llm' _ true (applyAnalysis p a) p.risk_level stats a hhit]
      · rfl
  · rfl

/-- The `batch_explain` loop only depends on the oracle's fast-model
behavior. -/
theorem batch_explain_go_fast_only
    (llm llm' : Bool → Product → Option PriceStats → Option Analysis)
    (enabled : Bool) (stats : Option PriceStats)
    (hfast : ∀ p s, llm false p s = llm' false p s) (products : List Product) :
    ∀ cache, batch_explain_go llm enabled stats products cache =
      batch_explain_go llm' enabled stats products cache := by
  induction products with
  | nil => intro cache; rfl
  | cons p rest IH =>
    intro cache
    simp only [batch_explain_go,
      batch_explain_step_fast_only llm llm' enabled stats p cache hfast, IH]

/-- Claim C4 as amended: the pipeline never sets the strong-model flag and
never re-invokes the capability (its result does not depend on the oracle's
strong-model behavior at all). The only escalation logic in the repository,
in `batch_explain` (which the pipeline does not call), is inert: the cache
key ignores `use_smart_model`, so when the fast result of a HIGH-risk
listing has scam probability in `[0.4, 0.6]` the re-invocation returns the
cached fast result and the listing keeps the fast analysis — and
consequently `batch_explain` as a whole also never depends on the
strong-model behavior. -/
theorem C4_escalation_inert_amended :
    (∀ (llm llm' : Bool → Product → Option PriceStats → Option Analysis)
       (enabled : Bool) (products : List Product) (query : String),
      (∀ p s, llm false p s = llm' false p s) →
      analyze_products llm enabled products query =
        analyze_products llm' enabled products query) ∧
    (∀ (llm : Bool → Product → Option PriceStats → Option Analysis)
       (stats : Option PriceStats) (p : Product) (cache : Cache) (a : Analysis),
      p.risk_level = some "HIGH" →
      (explain_risk llm true cache false p p.risk_level stats).1 = some a →
      0.4 ≤ a.scam_probability → a.scam_probability ≤ 0.6 →
      (batch_explain_step llm true stats p cache).1 = applyAnalysis p a) ∧
    (∀ (llm llm' : Bool → Product → Option PriceStats → Option Analysis)
       (enabled : Bool) (stats : Option PriceStats) (products : List Product)
       (cache : Cache),
      (∀ p s, llm false p s = llm' false p s) →
      batch_explain llm enabled stats products cache =
        batch_explain llm' enabled stats products cache) := by
  refine ⟨?_, ?_, ?_⟩
  · intro llm llm' enabled products query hfast
    simp only [analyze_products]
    rw [enrich_fast_model_only llm llm' enabled _ hfast]
  · intro llm stats p cache a hlevel hfastres hlo hhi
    have hhit := explain_risk_caches_success llm cache p p.risk_level stats a hfastres
    unfold batch_explain_step
    rw [if_pos (Or.inl hlevel)]
    simp only [hfastres]
    rw [if_pos (show (0.4 ≤ a.scam_probability ∧ a.scam_probability ≤ 0.6) ∧
      p.risk_level = some "HIGH" from ⟨⟨hlo, hhi⟩, hlevel⟩)]
    rw [explain_risk_hit llm _ true (applyAnalysis p a) p.risk_level stats a hhit]
    rfl
  · intro llm llm' enabled stats products cache hfast
    unfold batch_explain
    split
    · exact batch_explain_go_fast_only llm llm' enabled stats hfast products cache
    · rfl

/-- Witness for the amended C4: on the one-HIGH-listing batch, the pipeline
output does not change when the strong model of `oracleEscalate` is replaced
by a failing one; `batch_explain_step` on that listing (empty cache) ends
with the fast analysis even though the escalation condition holds and the
strong model would answer differently; and `batch_explain` is likewise
unchanged by the strong-model replacement. -/
theorem C4_escalation_inert_amended_witness :
    (analyze_products oracleEscalate true batchC4 "laptop" =
      analyze_products (fun _strong p s => oracleEscalate false p s) true batchC4 "laptop") ∧
    (((scoredValid "laptop" batchC4).getD 0 default).risk_level = some "HIGH" ∧
      (explain_risk oracleEscalate true [] false
        ((scoredValid "laptop" batchC4).getD 0 default)
        ((scoredValid "laptop" batchC4).getD 0 default).risk_level none).1 =
        some analysisWeak ∧
      (batch_explain_step oracleEscalate true none
        ((scoredValid "laptop" batchC4).getD 0 default) []).1 =
        applyAnalysis ((scoredValid "laptop" batchC4).getD 0 default) analysisWeak) ∧
    batch_explain oracleEscalate true none batchC4 [] =
      batch_explain (fun _strong p s => oracleEscalate false p s) true none batchC4 [] :=
  ⟨C4_escalation_inert_amended.1 oracleEscalate
     (fun _strong p s => oracleEscalate false p s) true batchC4 "laptop"
     (fun _ _ => rfl),
   ⟨by with_unfolding_all decide, by with_unfolding_all decide,
    C4_escalation_inert_amended.2.1 oracleEscalate none
      ((scoredValid "laptop" batchC4).getD 0 default) [] analysisWeak
      (by with_unfolding_all decide) (by with_unfolding_all decide)
      (by with_unfolding_all decide) (by with_unfolding_all decide)⟩,
   C4_escalation_inert_amended.2.2 oracleEscalate
     (fun _strong p s => oracleEscalate false p s) true none batchC4 []
     (fun _ _ => rfl)⟩

end Trustcart
